import Mathlib

/-!
# CI/CD Failure Prediction — verification of the scoring-policy and boundary logic

Shallow embedding of the Failure-Prediction-In-CI-CD-Pipelines repository.
The frontend TypeScript (api.ts, Dropzone.tsx, FileUpload.tsx, ManualForm.tsx,
ResultCard.tsx, types/index.ts) is embedded directly from the source.  The
backend Python engine (app.py, utils/parser.py, utils/preprocess.py) is not
part of the visible sources, so the Risk Policy, Config Parser and Feature
Builder are modelled from the specification's decision tables, as flagged on
each such definition.

Probabilities and thresholds are modelled as rationals; file sizes as
naturals (bytes); JavaScript strings as Lean strings, with character-level
operations spelled out where the source manipulates them.
-/

namespace CICD

/-- Risk tiers of the policy (`risk_level` of `PredictionResult`). -/
inductive RiskLevel | Critical | High | Medium | Low
deriving DecidableEq, Repr

/-- Prediction labels (`prediction` of `PredictionResult`). -/
inductive PredLabel | Success | Fail
deriving DecidableEq, Repr

/-- Confidence levels (`confidence_level` of `PredictionResult`). -/
inductive ConfidenceLevel | Low | Medium | High
deriving DecidableEq, Repr

/-- Alert types the `NotificationInfo` wire type declares
(types/index.ts lines 12–17). -/
inductive AlertType | critical | warning | info | success
deriving DecidableEq, Repr

/-- Modelled from the spec: the Risk Policy's `risk_level` rule (spec §4.5);
the backend implementation (app.py) is not among the visible sources.
`Critical` if `probability ≥ 0.8`; `High` if `≥ 0.6`; `Medium` if `≥ 0.4`;
else `Low`. -/
def riskLevel (p : ℚ) : RiskLevel :=
  if 0.8 ≤ p then .Critical
  else if 0.6 ≤ p then .High
  else if 0.4 ≤ p then .Medium
  else .Low

/-- Modelled from the spec: the Risk Policy's `prediction` rule (spec §4.5);
the backend implementation (app.py) is not among the visible sources.
`Fail` if `probability ≥ 0.5`, else `Success`. -/
def predLabel (p : ℚ) : PredLabel :=
  if 0.5 ≤ p then .Fail else .Success

/-- Modelled from the spec: the Risk Policy's `confidence_level` rule
(spec §4.5); the backend implementation (app.py) is not among the visible
sources.  Derived from the distance of `probability` from the 0.5 decision
boundary: `High` if `|p − 0.5| ≥ 0.3`, `Medium` if `≥ 0.15`, else `Low`. -/
def confidenceLevel (p : ℚ) : ConfidenceLevel :=
  if 0.3 ≤ |p - 0.5| then .High
  else if 0.15 ≤ |p - 0.5| then .Medium
  else .Low

/-- Rank of a confidence level, for stating monotonicity
(`Low < Medium < High`). -/
def ConfidenceLevel.rank : ConfidenceLevel → ℕ
  | .Low => 0
  | .Medium => 1
  | .High => 2

/-- The default notification threshold written to `.env` by
backend/setup.sh (`NOTIFICATION_THRESHOLD=0.7`). -/
def defaultNotificationThreshold : ℚ := 0.7

/-- Modelled from the spec: the Risk Policy's `notification.should_notify`
rule (spec §4.5); the backend implementation (app.py) is not among the
visible sources.  True exactly when `probability ≥ threshold`. -/
def shouldNotify (p threshold : ℚ) : Bool :=
  decide (threshold ≤ p)

/-- Modelled from the spec: the Risk Policy's `notification.alert_type`
rule (spec §4.5); the backend implementation (app.py) is not among the
visible sources.  `critical` if `probability ≥ 0.8`, `warning` if
`≥ threshold`, `info` otherwise — assigned regardless of `should_notify`. -/
def alertType (p threshold : ℚ) : AlertType :=
  if 0.8 ≤ p then .critical
  else if threshold ≤ p then .warning
  else .info

/-- Embeds `getRiskColor` (api.ts lines 184–189): Tailwind text colour from
the failure probability. -/
def getRiskColor (p : ℚ) : String :=
  if 0.8 ≤ p then "text-red-600"
  else if 0.6 ≤ p then "text-orange-600"
  else if 0.4 ≤ p then "text-yellow-600"
  else "text-green-600"

/-- Embeds `getRiskBgColor` (api.ts lines 192–197). -/
def getRiskBgColor (p : ℚ) : String :=
  if 0.8 ≤ p then "bg-red-50 border-red-200"
  else if 0.6 ≤ p then "bg-orange-50 border-orange-200"
  else if 0.4 ≤ p then "bg-yellow-50 border-yellow-200"
  else "bg-green-50 border-green-200"

/-- Embeds the progress-bar band of `ResultCard` (ResultCard.tsx lines
88–96): bar colour chosen by the same probability thresholds. -/
def resultCardBarColor (p : ℚ) : String :=
  if 0.8 ≤ p then "bg-red-500"
  else if 0.6 ≤ p then "bg-orange-500"
  else if 0.4 ≤ p then "bg-yellow-500"
  else "bg-green-500"

/-- The text colour `getRiskColor` would pick for each risk tier: used to
state that the frontend colour map follows the risk bands exactly. -/
def riskTierTextColor : RiskLevel → String
  | .Critical => "text-red-600"
  | .High => "text-orange-600"
  | .Medium => "text-yellow-600"
  | .Low => "text-green-600"

/-- The progress-bar colour `ResultCard` would pick for each risk tier. -/
def riskTierBarColor : RiskLevel → String
  | .Critical => "bg-red-500"
  | .High => "bg-orange-500"
  | .Medium => "bg-yellow-500"
  | .Low => "bg-green-500"

/-! ## File validation (frontend boundary) -/

/-- The `(name, size)` view of a JavaScript `File` that both validators
inspect: `name` the declared filename, `size` in bytes. -/
structure FileInfo where
  name : String
  size : ℕ
deriving DecidableEq, Repr

/-- Outcome record of `validateFile` (api.ts line 160):
`{ isValid: boolean; error?: string }`. -/
structure ValidationOutcome where
  isValid : Bool
  error : Option String
deriving DecidableEq, Repr

/-- The 16 MiB ceiling of api.ts line 162 (`16 * 1024 * 1024`). -/
def maxFileSize : ℕ := 16 * 1024 * 1024

/-- Embeds `file.name.split('.').pop()?.toLowerCase()` (api.ts line 169) at
character level: the characters after the last `'.'` of the name — the whole
name when it has no dot, matching how a split on `'.'` with no separator
present returns the string itself — lower-cased. -/
def extensionChars (name : List Char) : List Char :=
  ((name.reverse.takeWhile fun c => c ≠ '.').reverse).map Char.toLower

/-- The allowed extensions of api.ts line 168, as character lists. -/
def allowedExtensions : List (List Char) := ["yml".data, "yaml".data]

/-- Embeds `validateFile` (api.ts lines 160–176): reject files over 16 MiB,
then reject when the lower-cased final dot-component is empty (the falsy
`!fileExtension` check) or not among the allowed extensions. -/
def validateFile (f : FileInfo) : ValidationOutcome :=
  if maxFileSize < f.size then
    { isValid := false, error := some "File size exceeds 16MB limit" }
  else
    if extensionChars f.name.data = [] ∨
        extensionChars f.name.data ∉ allowedExtensions then
      { isValid := false, error := some "Only .yml and .yaml files are allowed" }
    else
      { isValid := true, error := none }

/-- The `accept` option FileUpload.tsx lines 56–59 passes to `useDropzone`:
`Object.values(accept).flat()` over
`{'text/yaml': ['.yml','.yaml'], 'application/x-yaml': ['.yml','.yaml']}`. -/
def dropzoneAcceptedTypes : List (List Char) :=
  [".yml".data, ".yaml".data, ".yml".data, ".yaml".data]

/-- The `maxSize` option FileUpload.tsx line 61 passes to `useDropzone`. -/
def dropzoneMaxSize : ℕ := 16 * 1024 * 1024

/-- Embeds the `validateFile` closure inside `useDropzone` (Dropzone.tsx
lines 24–42), instantiated with the options FileUpload.tsx passes: the
error list gains `file-too-large` when the size exceeds `maxSize` and
`file-invalid-type` when `'.' + name.split('.').pop()?.toLowerCase()` is not
among the accepted types. -/
def dropzoneErrors (f : FileInfo) : List String :=
  (if dropzoneMaxSize < f.size then ["file-too-large"] else []) ++
    (if ('.' :: extensionChars f.name.data) ∈ dropzoneAcceptedTypes then []
     else ["file-invalid-type"])

/-- A file passes the dropzone when its error list is empty
(Dropzone.tsx lines 50–57). -/
def dropzoneAccepts (f : FileInfo) : Bool :=
  (dropzoneErrors f).isEmpty

/-- Embeds the upload gate of `FileUpload` (FileUpload.tsx lines 23–52):
`onDrop` receives the dropzone's partition of a dropped file — when the
dropzone rejected it, a validation error is set and the handler returns;
otherwise the file is re-validated with `validateFile`, and only on success
does it become the selected file passed to `onFileSelect` and available to
`handlePredict`/`onPredict`.  `some f` means `f` became selected (and so
can reach the prediction engine); `none` means it cannot. -/
def fileUploadSelect (f : FileInfo) : Option FileInfo :=
  if ¬ (dropzoneErrors f).isEmpty then none
  else if (validateFile f).isValid then some f
  else none

/-- The reading of C7's acceptance condition in which a "final extension"
requires a dot in the filename: the name contains `'.'` and the part after
the last dot, lower-cased, is `yml` or `yaml`, and the size is within the
16 MiB ceiling. -/
def finalExtensionAccepts (f : FileInfo) : Bool :=
  decide (f.size ≤ maxFileSize) &&
    f.name.data.contains '.' &&
    allowedExtensions.contains (extensionChars f.name.data)

/-! ## Manual form (ManualForm.tsx) -/

/-- The `ManualFormData` record (types/index.ts lines 20–32, api.ts lines
40–52): seven numeric fields and four categorical strings. -/
structure ManualFormData where
  build_duration : ℚ
  number_of_dependencies : ℚ
  lines_of_code_changed : ℚ
  commit_frequency : ℚ
  test_coverage : ℚ
  number_of_build_steps : ℚ
  environment_type : String
  build_trigger_type : String
  previous_build_status : String
  code_complexity_score : ℚ
  pipeline_tool : String
deriving DecidableEq, Repr

/-- Embeds the error-record construction of `validateForm` (ManualForm.tsx
lines 50–65): the keys of the `errors` record, one per failed check, in
source order. -/
def formErrorKeys (f : ManualFormData) : List String :=
  (if f.build_duration < 0 then ["build_duration"] else []) ++
    (if f.number_of_dependencies < 0 then ["number_of_dependencies"] else []) ++
    (if f.lines_of_code_changed < 0 then ["lines_of_code_changed"] else []) ++
    (if f.commit_frequency < 0 then ["commit_frequency"] else []) ++
    (if f.test_coverage < 0 ∨ 100 < f.test_coverage then ["test_coverage"] else []) ++
    (if f.number_of_build_steps < 0 then ["number_of_build_steps"] else []) ++
    (if f.code_complexity_score < 0 then ["code_complexity_score"] else [])

/-- `validateForm` returns true exactly when the error record stays empty
(ManualForm.tsx line 64: `Object.keys(errors).length === 0`). -/
def validateForm (f : ManualFormData) : Bool :=
  (formErrorKeys f).isEmpty

/-- Embeds `handleSubmit` (ManualForm.tsx lines 67–72): `onSubmit(formData)`
is invoked — modelled as `some formData` — exactly when `validateForm`
passes; otherwise nothing reaches the prediction engine (`none`). -/
def handleSubmit (f : ManualFormData) : Option ManualFormData :=
  if validateForm f then some f else none

/-! ## Config Parser (modelled from the spec) -/

/-- CI providers (spec §3; mirrored by `PIPELINE_TOOLS` in types/index.ts
lines 158–165). -/
inductive Provider
  | github_actions | gitlab_ci | azure_devops | circleci | travis_ci | unknown
deriving DecidableEq, Repr

/-- Modelled from the spec: `RawPipelineSignals` (spec §3); the backend
parser (utils/parser.py) is not among the visible sources.  Provider tag,
non-negative step count, free text for vectorization, categorical strings
with `unknown` fallback, and numeric hints defaulting to 0. -/
structure RawPipelineSignals where
  provider : Provider
  step_count : ℕ
  job_text : String
  trigger_type : String
  environment_type : String
  duration_hint : ℚ
  dependency_hint : ℕ
deriving DecidableEq, Repr

/-- Modelled from the spec: the structured form a document takes when it
does parse (spec §4.1) — detected provider, the extracted job/step strings,
optional trigger/environment markers, optional numeric hints. -/
structure StructuredDoc where
  provider : Provider
  steps : List String
  trigger : Option String
  environment : Option String
  duration_hint : Option ℚ
  dependency_hint : Option ℕ
deriving DecidableEq, Repr

/-- Modelled from the spec: the degraded-but-valid signals the parser
returns when the document cannot be parsed as structured data (spec §4.1):
`provider = unknown`, all derivable fields at safe defaults, `job_text` set
to the literal raw input. -/
def defaultSignals (raw : String) : RawPipelineSignals :=
  { provider := .unknown
    step_count := 0
    job_text := raw
    trigger_type := "unknown"
    environment_type := "unknown"
    duration_hint := 0
    dependency_hint := 0 }

/-- Modelled from the spec: extraction of signals from a parsed document
(spec §4.1): count the steps, concatenate the free-form strings into
`job_text`, fall back to `unknown`/0 for absent fields. -/
def extractSignals (d : StructuredDoc) : RawPipelineSignals :=
  { provider := d.provider
    step_count := d.steps.length
    job_text := " ".intercalate d.steps
    trigger_type := d.trigger.getD "unknown"
    environment_type := d.environment.getD "unknown"
    duration_hint := d.duration_hint.getD 0
    dependency_hint := d.dependency_hint.getD 0 }

/-- Modelled from the spec: the Config Parser (spec §4.1); the backend
implementation (utils/parser.py) is not among the visible sources.  The
structured-data parse — an external YAML library whose failure is an
exception in the source — is modelled as an explicit `Option`-valued
argument; the Config Parser is then a total function: a document that fails
to parse yields `defaultSignals`, never an error. -/
def parseConfig (structuredParse : String → Option StructuredDoc)
    (raw : String) : RawPipelineSignals :=
  match structuredParse raw with
  | none => defaultSignals raw
  | some d => extractSignals d

/-! ## Feature Builder (modelled from the spec) -/

/-- `ENVIRONMENT_TYPES` (types/index.ts lines 138–143). -/
def ENVIRONMENT_TYPES : List String :=
  ["production", "staging", "development", "unknown"]

/-- `BUILD_TRIGGER_TYPES` (types/index.ts lines 145–150). -/
def BUILD_TRIGGER_TYPES : List String :=
  ["push", "pull_request", "scheduled", "manual"]

/-- `BUILD_STATUS_TYPES` (types/index.ts lines 152–156). -/
def BUILD_STATUS_TYPES : List String :=
  ["success", "failure", "unknown"]

/-- `PIPELINE_TOOLS` (types/index.ts lines 158–165). -/
def PIPELINE_TOOLS : List String :=
  ["github_actions", "gitlab_ci", "azure_devops", "circleci", "travis_ci", "unknown"]

/-- Modelled from the spec: fixed categorical encoding (spec §4.2) — a value
maps to its index in its declared enumeration, and an unknown value maps to
the `unknown`/default member rather than raising.  The spec leaves the
training-time encoding order open (spec §9); only its totality and the
resulting vector shape matter here. -/
def encodeCategory (enum : List String) (v : String) : ℚ :=
  (((enum.indexOf? v).getD ((enum.indexOf? "unknown").getD 0)) : ℕ)

/-- The wire string of a provider tag, matching `PIPELINE_TOOLS`. -/
def Provider.toWire : Provider → String
  | .github_actions => "github_actions"
  | .gitlab_ci => "gitlab_ci"
  | .azure_devops => "azure_devops"
  | .circleci => "circleci"
  | .travis_ci => "travis_ci"
  | .unknown => "unknown"

/-- Modelled from the spec: text normalization fed to the vectorizer
(spec §4.3): lower-cased, whitespace-collapsed. -/
def normalizeText (t : String) : String :=
  " ".intercalate ((t.toLower.split fun c => c = ' ').filter fun s => s ≠ "")

/-- `FeatureVector` (spec §3): fixed-shape numeric row plus normalized
text blob. -/
structure FeatureVector where
  numeric : List ℚ
  text : String
deriving DecidableEq, Repr

/-- Modelled from the spec: the Feature Builder on the manual-form path
(spec §4.2); the backend implementation (utils/preprocess.py) is not among
the visible sources.  Seven numeric fields pass through unscaled; the four
categorical fields are encoded with the fixed mapping. -/
def buildFromForm (f : ManualFormData) : FeatureVector :=
  { numeric :=
      [f.build_duration, f.number_of_dependencies, f.lines_of_code_changed,
       f.commit_frequency, f.test_coverage, f.number_of_build_steps,
       f.code_complexity_score,
       encodeCategory ENVIRONMENT_TYPES f.environment_type,
       encodeCategory BUILD_TRIGGER_TYPES f.build_trigger_type,
       encodeCategory BUILD_STATUS_TYPES f.previous_build_status,
       encodeCategory PIPELINE_TOOLS f.pipeline_tool]
    text := normalizeText "" }

/-- Modelled from the spec: the Feature Builder on the parsed-file path
(spec §4.2); the backend implementation (utils/preprocess.py) is not among
the visible sources.  Numeric hints absent from the document are filled with
the domain default 0; categorical slots use the same fixed encoding; the
job text is normalized for the vectorizer. -/
def buildFromSignals (s : RawPipelineSignals) : FeatureVector :=
  { numeric :=
      [s.duration_hint, (s.dependency_hint : ℚ), 0, 0, 0,
       (s.step_count : ℚ), 0,
       encodeCategory ENVIRONMENT_TYPES s.environment_type,
       encodeCategory BUILD_TRIGGER_TYPES s.trigger_type,
       encodeCategory BUILD_STATUS_TYPES "unknown",
       encodeCategory PIPELINE_TOOLS s.provider.toWire]
    text := normalizeText s.job_text }

/-! ## Claim theorems -/

/-- C1: for every probability in `[0,1]`, the Risk Policy assigns
`Critical` iff `p ≥ 0.8`, `High` iff `0.6 ≤ p < 0.8`, `Medium` iff
`0.4 ≤ p < 0.6`, and `Low` otherwise — four half-open bands covering
`[0,1]` with no gap or overlap (each probability lands in exactly one band
because `riskLevel` is a total function and the four characterisations are
mutually exclusive) — and the frontend colour maps `getRiskColor` and the
`ResultCard` progress-bar band pick their colour by exactly these
thresholds, i.e. as a function of the risk tier. -/
theorem c1_risk_bands (p : ℚ) (h0 : 0 ≤ p) (h1 : p ≤ 1) :
    (riskLevel p = .Critical ↔ 0.8 ≤ p) ∧
    (riskLevel p = .High ↔ 0.6 ≤ p ∧ p < 0.8) ∧
    (riskLevel p = .Medium ↔ 0.4 ≤ p ∧ p < 0.6) ∧
    (riskLevel p = .Low ↔ p < 0.4) ∧
    getRiskColor p = riskTierTextColor (riskLevel p) ∧
    resultCardBarColor p = riskTierBarColor (riskLevel p) := by
  unfold riskLevel getRiskColor resultCardBarColor
  split_ifs with h8 h6 h4 <;>
    simp_all [riskTierTextColor, riskTierBarColor, not_le] <;>
    first
      | linarith
      | (constructor <;> first | linarith | (intro _; linarith))

/-- Witness for C1 at `p = 0.85`: the hypotheses `0 ≤ 0.85 ≤ 1` hold and
the theorem yields the Critical band and the matching red text colour. -/
theorem c1_risk_bands_witness :
    riskLevel 0.85 = .Critical ∧
    getRiskColor 0.85 = riskTierTextColor (riskLevel 0.85) := by
  have h := c1_risk_bands 0.85 (by norm_num) (by norm_num)
  exact ⟨h.1.mpr (by norm_num), h.2.2.2.2.1⟩

/-- C2: for every probability in `[0,1]`, `prediction = Fail` iff
`p ≥ 0.5` (the boundary itself yields `Fail`), else `Success`. -/
theorem c2_prediction_boundary (p : ℚ) (h0 : 0 ≤ p) (h1 : p ≤ 1) :
    (predLabel p = .Fail ↔ 0.5 ≤ p) ∧ (predLabel p = .Success ↔ p < 0.5) := by
  unfold predLabel
  split_ifs with h <;> simp_all [not_le] <;> linarith

/-- Witness for C2 at the boundary `p = 0.5` and at `p = 0.45`. -/
theorem c2_prediction_boundary_witness :
    predLabel 0.5 = .Fail ∧ predLabel 0.45 = .Success := by
  exact ⟨(c2_prediction_boundary 0.5 (by norm_num) (by norm_num)).1.mpr (by norm_num),
    (c2_prediction_boundary 0.45 (by norm_num) (by norm_num)).2.mpr (by norm_num)⟩

/-- C3: for every probability in `[0,1]`, `confidence_level` is `High` iff
`|p − 0.5| ≥ 0.3`, `Medium` iff `0.15 ≤ |p − 0.5| < 0.3`, `Low` otherwise;
it is monotone non-decreasing in the distance from 0.5; and the spec's
scenarios hold: 0.85 yields `High`, 0.45 yields `Low`. -/
theorem c3_confidence_bands (p : ℚ) (h0 : 0 ≤ p) (h1 : p ≤ 1) :
    (confidenceLevel p = .High ↔ 0.3 ≤ |p - 0.5|) ∧
    (confidenceLevel p = .Medium ↔ 0.15 ≤ |p - 0.5| ∧ |p - 0.5| < 0.3) ∧
    (confidenceLevel p = .Low ↔ |p - 0.5| < 0.15) ∧
    (∀ q : ℚ, |p - 0.5| ≤ |q - 0.5| →
      (confidenceLevel p).rank ≤ (confidenceLevel q).rank) ∧
    confidenceLevel 0.85 = .High ∧ confidenceLevel 0.45 = .Low := by
  refine ⟨?_, ?_, ?_, ?_, by norm_num [confidenceLevel, abs],
      by norm_num [confidenceLevel, abs]⟩ <;>
    [skip; skip; skip;
     (intro q hq;
      unfold confidenceLevel;
      split_ifs <;> simp_all [ConfidenceLevel.rank, not_le] <;> linarith)] <;>
  · unfold confidenceLevel
    split_ifs <;>
      simp_all [not_le] <;>
      first
        | linarith
        | (constructor <;> first | linarith | (intro _; linarith))

/-- Witness for C3 at `p = 0.85`: the scenario conjuncts of the theorem. -/
theorem c3_confidence_bands_witness :
    confidenceLevel 0.85 = .High ∧ confidenceLevel 0.45 = .Low :=
  (c3_confidence_bands 0.85 (by norm_num) (by norm_num)).2.2.2.2

/-- C4: for every probability in `[0,1]` and fixed threshold,
`should_notify` holds exactly when `p ≥ threshold` (in particular, with the
default threshold 0.7 of backend/setup.sh, exactly when `p ≥ 0.7`), and it
is monotone non-decreasing in `p` for a fixed threshold. -/
theorem c4_should_notify_monotone (p p' t : ℚ) (h0 : 0 ≤ p) (h1 : p ≤ 1) :
    (shouldNotify p t = true ↔ t ≤ p) ∧
    (shouldNotify p defaultNotificationThreshold = true ↔ 0.7 ≤ p) ∧
    (shouldNotify p t = true → p ≤ p' → shouldNotify p' t = true) := by
  unfold shouldNotify defaultNotificationThreshold
  refine ⟨by simp, by simp, ?_⟩
  simp only [decide_eq_true_eq]
  exact fun h hpp' => le_trans h hpp'

/-- Witness for C4 at `p = 0.85`, `p' = 0.9`, default threshold. -/
theorem c4_should_notify_monotone_witness :
    shouldNotify 0.85 defaultNotificationThreshold = true ∧
    shouldNotify 0.9 defaultNotificationThreshold = true := by
  have h := c4_should_notify_monotone 0.85 0.9 defaultNotificationThreshold
    (by norm_num) (by norm_num)
  refine ⟨h.2.1.mpr (by norm_num), h.2.2 (h.2.1.mpr (by norm_num)) (by norm_num)⟩

/-- C5: for every probability in `[0,1]` and every threshold, `alert_type`
is exactly one of `critical` (iff `p ≥ 0.8`), `warning` (iff
`threshold ≤ p < 0.8`) and `info` (otherwise); it is assigned regardless of
`should_notify`, and the declared fourth value `success` is never
produced. -/
theorem c5_alert_type_values (p t : ℚ) (h0 : 0 ≤ p) (h1 : p ≤ 1) :
    alertType p t ≠ .success ∧
    (alertType p t = .critical ↔ 0.8 ≤ p) ∧
    (alertType p t = .warning ↔ t ≤ p ∧ p < 0.8) ∧
    (alertType p t = .info ↔ p < t ∧ p < 0.8) := by
  unfold alertType
  split_ifs with h8 ht <;>
    simp_all [not_le] <;>
    first
      | linarith
      | (constructor <;> first | linarith | (intro _; linarith))

/-- Witness for C5 at `p = 0.85`, `t = 0.7`: `critical`, not `success`. -/
theorem c5_alert_type_values_witness :
    alertType 0.85 0.7 = .critical ∧ alertType 0.85 0.7 ≠ .success := by
  have h := c5_alert_type_values 0.85 0.7 (by norm_num) (by norm_num)
  exact ⟨h.2.1.mpr (by norm_num), h.1⟩

/-- C6: the Config Parser is a total function of its input — the
structured-data parse is an explicit `Option`-valued collaborator, so no
input can raise — and whenever the document fails to parse as structured
data it returns exactly the degraded-but-valid record: `provider =
unknown`, step count 0, categorical fields `unknown`, numeric hints 0, and
`job_text` the literal raw input. -/
theorem c6_parser_never_raises (structuredParse : String → Option StructuredDoc)
    (raw : String) (h : structuredParse raw = none) :
    parseConfig structuredParse raw = defaultSignals raw ∧
    (parseConfig structuredParse raw).provider = .unknown ∧
    (parseConfig structuredParse raw).job_text = raw ∧
    (parseConfig structuredParse raw).step_count = 0 ∧
    (parseConfig structuredParse raw).trigger_type = "unknown" ∧
    (parseConfig structuredParse raw).environment_type = "unknown" := by
  simp [parseConfig, h, defaultSignals]

/-- Witness for C6: a parse that rejects everything (random binary content)
still yields the degraded record, with the raw text as `job_text`. -/
theorem c6_parser_never_raises_witness :
    parseConfig (fun _ => none) "&*^%$ not yaml" = defaultSignals "&*^%$ not yaml" ∧
    (parseConfig (fun _ => none) "&*^%$ not yaml").provider = .unknown := by
  have h := c6_parser_never_raises (fun _ => none) "&*^%$ not yaml" rfl
  exact ⟨h.1, h.2.1⟩

/-- C7 counterexample: the claim reads `validateFile` as accepting exactly
the files whose name has a final extension `yml`/`yaml` (which requires a
dot).  The file named `yml` of size 0 has no dot, hence no final extension,
yet `validateFile` accepts it, because `name.split('.').pop()` of a dotless
name is the whole name.  So the claimed equivalence fails at this input. -/
theorem c7_final_extension_counterexample :
    (validateFile ⟨"yml", 0⟩).isValid = true ∧
    finalExtensionAccepts ⟨"yml", 0⟩ = false := by decide

/-- C7 amended: `validateFile` accepts a file iff its size is at most
16 MiB and the final dot-component of its name — the part after the last
dot, or the whole name when it has no dot — lower-cased, is `yml` or
`yaml`; every rejected file carries an error string and never reaches the
prediction engine: the `FileUpload` gate never selects it, so `onPredict`
cannot receive it. -/
theorem c7_validate_file_amended (f : FileInfo) :
    ((validateFile f).isValid = true ↔
      f.size ≤ maxFileSize ∧ extensionChars f.name.data ∈ allowedExtensions) ∧
    ((validateFile f).isValid = false → (validateFile f).error.isSome = true) ∧
    ((validateFile f).isValid = false → fileUploadSelect f = none) := by
  have hnil : ([] : List Char) ∉ allowedExtensions := by decide
  refine ⟨?_, ?_, ?_⟩
  · unfold validateFile
    split_ifs with hs hx <;> simp_all [not_lt, not_or]
    intro hmem
    rcases hx with hx | hx
    · exact hnil (hx ▸ hmem)
    · exact hx hmem
  · unfold validateFile
    split_ifs <;> simp_all
  · intro h
    unfold fileUploadSelect
    split_ifs with h1 h2 <;> simp_all

/-- Witness for C7 (amended): a well-formed file is accepted, and a file
rejected for its extension never becomes selected for prediction. -/
theorem c7_validate_file_amended_witness :
    (validateFile ⟨"pipeline.yaml", 1024⟩).isValid = true ∧
    fileUploadSelect ⟨"config.txt", 5⟩ = none :=
  ⟨(c7_validate_file_amended ⟨"pipeline.yaml", 1024⟩).1.mpr ⟨by decide, by decide⟩,
   (c7_validate_file_amended ⟨"config.txt", 5⟩).2.2 (by decide)⟩

/-- C8: the manual form reaches `onSubmit` with its data iff all seven
numeric fields are non-negative and `test_coverage` is at most 100;
violating any constraint leaves `onSubmit` uninvoked. -/
theorem c8_form_gate (f : ManualFormData) :
    (handleSubmit f = some f ↔
      (0 ≤ f.build_duration ∧ 0 ≤ f.number_of_dependencies ∧
       0 ≤ f.lines_of_code_changed ∧ 0 ≤ f.commit_frequency ∧
       0 ≤ f.test_coverage ∧ f.test_coverage ≤ 100 ∧
       0 ≤ f.number_of_build_steps ∧ 0 ≤ f.code_complexity_score)) ∧
    (handleSubmit f = none ↔
      ¬ (0 ≤ f.build_duration ∧ 0 ≤ f.number_of_dependencies ∧
       0 ≤ f.lines_of_code_changed ∧ 0 ≤ f.commit_frequency ∧
       0 ≤ f.test_coverage ∧ f.test_coverage ≤ 100 ∧
       0 ≤ f.number_of_build_steps ∧ 0 ≤ f.code_complexity_score)) := by
  have hv : validateForm f = true ↔
      (0 ≤ f.build_duration ∧ 0 ≤ f.number_of_dependencies ∧
       0 ≤ f.lines_of_code_changed ∧ 0 ≤ f.commit_frequency ∧
       0 ≤ f.test_coverage ∧ f.test_coverage ≤ 100 ∧
       0 ≤ f.number_of_build_steps ∧ 0 ≤ f.code_complexity_score) := by
    simp [validateForm, formErrorKeys, List.isEmpty_iff, List.append_eq_nil,
      ite_eq_right_iff, not_lt, not_or]
    tauto
  by_cases h : validateForm f = true <;> simp_all [handleSubmit, h]

/-- C9: the Feature Builder produces numeric arrays of one constant length
(11, the count of declared numeric and categorical-encoded fields) on both
the parsed-file path and the manual-form path, for every input. -/
theorem c9_vector_length_invariant (s : RawPipelineSignals) (f : ManualFormData) :
    (buildFromSignals s).numeric.length = (buildFromForm f).numeric.length ∧
    (buildFromForm f).numeric.length = 11 :=
  ⟨rfl, rfl⟩

/-- C10: the validator inside `useDropzone` (with the options FileUpload
passes) and the exported `validateFile` of api.ts accept exactly the same
`(filename, size)` pairs. -/
theorem c10_validators_equivalent (f : FileInfo) :
    dropzoneAccepts f = true ↔ (validateFile f).isValid = true := by
  have hdot : ∀ l : List Char,
      (('.' :: l) ∈ dropzoneAcceptedTypes ↔ l ∈ allowedExtensions) := by
    intro l
    simp [dropzoneAcceptedTypes, allowedExtensions,
      show (".yml").data = '.' :: "yml".data from rfl,
      show (".yaml").data = '.' :: "yaml".data from rfl]
    tauto
  have hnil : ([] : List Char) ∉ allowedExtensions := by decide
  unfold dropzoneAccepts dropzoneErrors validateFile
  rw [show dropzoneMaxSize = maxFileSize from rfl]
  split_ifs with hs hmem hx hx <;>
    simp_all [List.isEmpty_iff, not_or, hdot] <;>
    tauto

end CICD
